import Mathlib

/-!
Verification development for the visual matching engine
(`src/python/feature_matching.py`, `src/python/template_matching.py`,
`src/python/yolo_orb_matching.py`).

The Python code is shallowly embedded: pure data flow is translated to Lean
functions over `ℚ`/`ℤ`/`ℕ`; Python dictionaries that carry configuration are
structures of `Option` fields (`none` = key absent, `Option.getD` = `dict.get`
with default); fallible paths return `Option`.  Calls into OpenCV that are
genuinely external (keypoint detection, descriptor matching, RANSAC homography
estimation, template-correlation scoring, image resizing) are parameters
gathered in environment structures, so theorems quantify over every possible
behaviour of the external library, while concrete counterexamples instantiate
the environments with behaviour the library actually exhibits.
-/

/-- A grayscale image: a fixed-size 2-D grid of pixel values (row, column). -/
structure Image where
  height : Nat
  width : Nat
  data : Nat → Nat → ℚ

/-- Python `int(q)` on a float: truncation toward zero. -/
def ratTrunc (q : ℚ) : Int :=
  Int.tdiv q.num q.den

/-- Configuration dictionary.  One structure stands for the untyped Python
config dicts of all three engines; a `none` field is an absent key. -/
structure Cfg where
  -- feature-matching keys (feature_matching.py)
  distance_threshold : Option ℚ := none
  min_matches : Option Nat := none
  max_retries : Option Nat := none
  use_ratio_test : Option Bool := none
  use_cross_check : Option Bool := none
  homography_threshold : Option ℚ := none
  matcher_type : Option String := none
  -- ORB detector keys read by `_attempt_orb_matching`
  nfeatures : Option Nat := none
  scaleFactor : Option ℚ := none
  nlevels : Option Nat := none
  edgeThreshold : Option Nat := none
  firstLevel : Option Nat := none
  WTA_K : Option Nat := none
  scoreType : Option Nat := none
  patchSize : Option Nat := none
  fastThreshold : Option Nat := none
  -- hybrid keys (yolo_orb_matching.py)
  use_yolo_preprocessing : Option Bool := none
  yolo_roi_expansion : Option ℚ := none
  min_yolo_confidence : Option ℚ := none
  orb_fallback : Option Bool := none
  model_path : Option String := none
  -- correlation keys (template_matching.py)
  method : Option String := none
  threshold : Option ℚ := none
  scale_range : Option (ℚ × ℚ) := none
  scale_steps : Option Nat := none
  deriving DecidableEq

/-- ORB detector parameters, the nine keys assembled at the top of
`_attempt_orb_matching` (feature_matching.py lines 261-271). -/
structure OrbParams where
  nfeatures : Nat
  scaleFactor : ℚ
  nlevels : Nat
  edgeThreshold : Nat
  firstLevel : Nat
  WTA_K : Nat
  scoreType : Nat
  patchSize : Nat
  fastThreshold : Nat
  deriving DecidableEq

/-- The ORB parameter dict built in `_attempt_orb_matching` from the config. -/
def orbParamsOf (c : Cfg) : OrbParams where
  nfeatures := c.nfeatures.getD 1000
  scaleFactor := c.scaleFactor.getD (6/5)
  nlevels := c.nlevels.getD 8
  edgeThreshold := c.edgeThreshold.getD 31
  firstLevel := c.firstLevel.getD 0
  WTA_K := c.WTA_K.getD 2
  scoreType := c.scoreType.getD 0
  patchSize := c.patchSize.getD 31
  fastThreshold := c.fastThreshold.getD 20

/-- The loosened parameter set used when zero keypoints are detected
(`detect_and_compute`, feature_matching.py lines 168-177). -/
def looseParams (p : OrbParams) : OrbParams :=
  { p with fastThreshold := 5, edgeThreshold := 10, nfeatures := 2000 }

/-- A keypoint location (`kp.pt`). -/
abbrev Keypoint := ℚ × ℚ

/-- A descriptor; its content is opaque to the matching logic. -/
abbrev Descriptor := Nat

/-- A descriptor correspondence (`cv2.DMatch`). -/
structure DMatch where
  queryIdx : Nat
  trainIdx : Nat
  distance : ℚ
  deriving DecidableEq

/-- A 3x3 homography. -/
structure Homography where
  h00 : ℚ
  h01 : ℚ
  h02 : ℚ
  h10 : ℚ
  h11 : ℚ
  h12 : ℚ
  h20 : ℚ
  h21 : ℚ
  h22 : ℚ
  deriving DecidableEq

/-- The bounding-box dictionary built in `_analyze_matches`. -/
structure BBox where
  left : Int
  top : Int
  right : Int
  bottom : Int
  width : Int
  height : Int
  deriving DecidableEq

/-- The result dictionary produced by `_analyze_matches`.  Fields mirror the
dict keys; `xKey`/`yKey` stand for the optional `"x"`/`"y"` entries (never set
by `_analyze_matches`, probed by `_match_in_roi`), `yolo_confidence` for the
key added by `_match_in_roi`.  `avg_distance = none` encodes `float("inf")`
(empty match list).  `inlier_rate` embeds the `"inlier_ratio"` key. -/
structure OrbResult where
  method : String
  num_matches : Nat
  num_inliers : Nat
  inlier_rate : ℚ
  avg_distance : Option ℚ
  confidence : ℚ
  homography : Option Homography
  bounding_box : Option BBox
  center_point : Option (Int × Int)
  keypoints1 : List (Int × Int)
  keypoints2 : List (Int × Int)
  match_list : List (Nat × Nat × ℚ)
  template_size : Nat × Nat
  target_size : Nat × Nat
  xKey : Option Int := none
  yKey : Option Int := none
  yolo_confidence : Option ℚ := none
  deriving DecidableEq

/-- External OpenCV operations used by the ORB feature-matching engine.
Theorems quantify over this environment; counterexamples instantiate it with
behaviour the real library exhibits. -/
structure CvEnv where
  /-- Models `orb.detectAndCompute` (after grayscale/CLAHE preprocessing, which are
  functions of the image only): keypoints and optional descriptor array. -/
  orbDetect : Image → OrbParams → List Keypoint × Option (List Descriptor)
  /-- Models `cv2.BFMatcher(HAMMING, crossCheck).match des1 des2`. -/
  bfMatch : Bool → List Descriptor → List Descriptor → List DMatch
  /-- Models `cv2.FlannBasedMatcher(...).match des1 des2`. -/
  flannMatch : List Descriptor → List Descriptor → List DMatch
  /-- Models `matcher.knnMatch` with k 2: a list of up-to-2-element match lists. -/
  knnMatch2 : List Descriptor → List Descriptor → List (List DMatch)
  /-- Models `cv2.findHomography src dst RANSAC thr`: `none` covers both a `None`
  return and a raised `cv2.error` (the code treats them identically); `some`
  carries the homography and the inlier mask. -/
  findHomography : List Keypoint → List Keypoint → ℚ →
    Option (Homography × List Bool)

/-- Embeds `detect_and_compute` (feature_matching.py lines 117-183): empty-image
guard, detection, and the single retry with loosened parameters when zero
keypoints are found. -/
def detectAndCompute (env : CvEnv) (img : Image) (p : OrbParams) :
    List Keypoint × Option (List Descriptor) :=
  if img.height = 0 ∨ img.width = 0 then ([], none)
  else
    let r := env.orbDetect img p
    if r.1.length = 0 then env.orbDetect img (looseParams p) else r

/-- Embeds `_ratio_test_matching` (feature_matching.py lines 326-360). -/
def ratioTestMatching (env : CvEnv) (des1 des2 : List Descriptor) (c : Cfg) :
    List DMatch :=
  let rawMatches := env.knnMatch2 des1 des2
  let ratioThreshold := c.distance_threshold.getD (3/4)
  (rawMatches.filterMap fun pair =>
    match pair with
    | [m, n] => if m.distance < ratioThreshold * n.distance then some m else none
    | _ => none)

/-- Models `cv2.perspectiveTransform` for one point: projective application of the
3x3 matrix, with the OpenCV convention that a vanishing denominator maps to 0. -/
def projPoint (hm : Homography) (p : ℚ × ℚ) : ℚ × ℚ :=
  let w := hm.h20 * p.1 + hm.h21 * p.2 + hm.h22
  if w = 0 then (0, 0)
  else ((hm.h00 * p.1 + hm.h01 * p.2 + hm.h02) / w,
        (hm.h10 * p.1 + hm.h11 * p.2 + hm.h12) / w)

/-- Fold a nonempty list of rationals with `min`. -/
def qmin : ℚ → List ℚ → ℚ := List.foldl min

/-- Fold a nonempty list of rationals with `max`. -/
def qmax : ℚ → List ℚ → ℚ := List.foldl max

/-- Embeds `_analyze_matches` (feature_matching.py lines 362-479), the part that
builds the result dict: homography estimation (only with at least four
correspondences), inlier counting, distance/confidence statistics, and the
bounding box obtained by projecting the corners of the template (only when a
homography was found and there are at least four inliers). -/
def analyzeMatches (env : CvEnv) (kp1 kp2 : List Keypoint)
    (ms : List DMatch) (tmpl tgt : Image) (c : Cfg) : OrbResult :=
  let srcPts := ms.map fun m => kp1.getD m.queryIdx (0, 0)
  let dstPts := ms.map fun m => kp2.getD m.trainIdx (0, 0)
  let homInl : Option Homography × Nat :=
    if 4 ≤ ms.length then
      match env.findHomography srcPts dstPts (c.homography_threshold.getD 5) with
      | some (hm, mask) => (some hm, mask.countP (fun b => b))
      | none => (none, 0)
    else (none, 0)
  let totalMatches := ms.length
  let numInliers := homInl.2
  let inlierRate : ℚ :=
    if 0 < totalMatches then (numInliers : ℚ) / (totalMatches : ℚ) else 0
  let avgDistance : Option ℚ :=
    if ms.isEmpty then none
    else some ((ms.map (fun m => m.distance)).sum / (totalMatches : ℚ))
  let confidence : ℚ :=
    inlierRate * (7/10) + min ((totalMatches : ℚ) / 100) 1 * (3/10)
  let boxCenter : Option (BBox × (Int × Int)) :=
    match homInl.1 with
    | some hm =>
      if 4 ≤ numInliers then
        let h := tmpl.height
        let w := tmpl.width
        let corners : List (ℚ × ℚ) :=
          [(0, 0), ((w : ℚ), 0), ((w : ℚ), (h : ℚ)), (0, (h : ℚ))]
        let proj := corners.map (projPoint hm)
        let xs := proj.map Prod.fst
        let ys := proj.map Prod.snd
        let minX := ratTrunc (qmin (xs.headD 0) xs.tail)
        let maxX := ratTrunc (qmax (xs.headD 0) xs.tail)
        let minY := ratTrunc (qmin (ys.headD 0) ys.tail)
        let maxY := ratTrunc (qmax (ys.headD 0) ys.tail)
        some ({ left := minX, top := minY, right := maxX, bottom := maxY,
                width := maxX - minX, height := maxY - minY },
              (ratTrunc (((minX : ℚ) + (maxX : ℚ)) / 2),
               ratTrunc (((minY : ℚ) + (maxY : ℚ)) / 2)))
      else none
    | none => none
  { method := "ORB_features"
    num_matches := totalMatches
    num_inliers := numInliers
    inlier_rate := inlierRate
    avg_distance := avgDistance
    confidence := confidence
    homography := homInl.1
    bounding_box := boxCenter.map Prod.fst
    center_point := boxCenter.map Prod.snd
    keypoints1 := kp1.map fun k => (ratTrunc k.1, ratTrunc k.2)
    keypoints2 := kp2.map fun k => (ratTrunc k.1, ratTrunc k.2)
    match_list := ms.map fun m => (m.queryIdx, m.trainIdx, m.distance)
    template_size := (tmpl.height, tmpl.width)
    target_size := (tgt.height, tgt.width) }

/-- The extraction and correspondence stages of `_attempt_orb_matching`
(feature_matching.py lines 259-309): keypoint/descriptor extraction on both
images, the descriptor-presence and `len < 4` guards, matcher construction
(`create_matcher` raises on an unknown type, which the surrounding `except`
turns into `None`), and the configuration-selected correspondence strategy. -/
def stageCorrespond (env : CvEnv) (tmpl tgt : Image) (c : Cfg) :
    Option (List Keypoint × List Keypoint × List DMatch) :=
  let p := orbParamsOf c
  let r1 := detectAndCompute env tmpl p
  let r2 := detectAndCompute env tgt p
  match r1.2, r2.2 with
  | some des1, some des2 =>
    if des1.length < 4 ∨ des2.length < 4 then none
    else
      let matcherType := c.matcher_type.getD "BF"
      let crossCheck := c.use_cross_check.getD true
      if matcherType ≠ "BF" ∧ matcherType ≠ "FLANN" then none
      else
        let ms :=
          if c.use_ratio_test.getD true ∧ matcherType = "BF" ∧ ¬ crossCheck
          then ratioTestMatching env des1 des2 c
          else if matcherType = "BF" then env.bfMatch crossCheck des1 des2
          else env.flannMatch des1 des2
        some (r1.1, r2.1, ms)
  | _, _ => none

/-- Indices of every correspondence stay inside the keypoint lists (a bad
index raises `IndexError` in `_analyze_matches`, caught by the `except` of
`_attempt_orb_matching`, which then returns `None`). -/
def validIdx (ms : List DMatch) (kp1 kp2 : List Keypoint) : Bool :=
  ms.all fun m => decide (m.queryIdx < kp1.length) && decide (m.trainIdx < kp2.length)

/-- Embeds `_attempt_orb_matching` (feature_matching.py lines 242-324): one matching
attempt, `None` when a guard fails, otherwise the analysed result. -/
def attemptOrbMatching (env : CvEnv) (tmpl tgt : Image) (c : Cfg) :
    Option OrbResult :=
  match stageCorrespond env tmpl tgt c with
  | none => none
  | some (kp1, kp2, ms) =>
    if ms.length < c.min_matches.getD 10 then none
    else if validIdx ms kp1 kp2 then some (analyzeMatches env kp1 kp2 ms tmpl tgt c)
    else none

/-- The merge of `default_match_config` performed by `match_features`
(feature_matching.py lines 202-207); `retry_delay` only feeds `time.sleep`
and is not modelled. -/
def mergeMatch (c : Cfg) : Cfg :=
  { c with
    distance_threshold := some (c.distance_threshold.getD (4/5))
    min_matches := some (c.min_matches.getD 4)
    max_retries := some (c.max_retries.getD 3)
    use_ratio_test := some (c.use_ratio_test.getD false)
    use_cross_check := some (c.use_cross_check.getD false)
    homography_threshold := some (c.homography_threshold.getD 5) }

/-- The retry loop of `match_features`: a non-empty result dict is truthy, so
the first successful attempt is returned; the attempts are identical. -/
def matchFeaturesAux (env : CvEnv) (tmpl tgt : Image) (c : Cfg) :
    Nat → Option OrbResult
  | 0 => none
  | n + 1 =>
    match attemptOrbMatching env tmpl tgt c with
    | some r => some r
    | none => matchFeaturesAux env tmpl tgt c n

/-- Embeds `match_features` (feature_matching.py lines 185-240). -/
def matchFeatures (env : CvEnv) (tmpl tgt : Image) (c : Cfg) :
    Option OrbResult :=
  let mc := mergeMatch c
  matchFeaturesAux env tmpl tgt mc (mc.max_retries.getD 3)

/-- One YOLO detection dictionary, read by `_match_in_roi`
(`"x"`, `"y"`, `"width"`, `"height"`, `"confidence"`). -/
structure Detection where
  x : Int
  y : Int
  width : Int
  height : Int
  confidence : ℚ
  deriving DecidableEq

/-- The merge of `default_hybrid_config` performed by `match_with_yolo_orb`
(yolo_orb_matching.py lines 326-331); `multi_scale_matching` and
`scale_factors` are defaulted but never read anywhere, so they are not
modelled. -/
def mergeHybrid (c : Cfg) : Cfg :=
  { c with
    use_yolo_preprocessing := some (c.use_yolo_preprocessing.getD true)
    yolo_roi_expansion := some (c.yolo_roi_expansion.getD (1/10))
    min_yolo_confidence := some (c.min_yolo_confidence.getD (3/10))
    orb_fallback := some (c.orb_fallback.getD true) }

/-- Embeds `detect_objects_yolo` (yolo_orb_matching.py lines 269-306): after merging
the YOLO defaults and optionally calling `reload_model` (whose only effect is
logging and the rebuilt class-name list), the detection list is the literal
`detections = []` — YOLO inference is not implemented, so the function
returns the empty list for every image and configuration. -/
def detectObjectsYolo (_img : Image) (_c : Cfg) : List Detection := []

/-- Numpy slicing `img[y : y + h, x : x + w]` for the nonnegative offsets
produced by `_match_in_roi` (negative extents give an empty image). -/
def cropImage (img : Image) (x y w h : Int) : Image where
  height := h.toNat
  width := w.toNat
  data := fun i j => img.data (i + y.toNat) (j + x.toNat)

/-- Embeds `_match_in_roi` (yolo_orb_matching.py lines 381-440): ROI expansion and
clamping, the crop, feature matching inside the ROI, the conditional
remapping of the `"x"`/`"y"` keys (which a `match_features` result never
contains), and the YOLO tagging. -/
def matchInRoi (env : CvEnv) (tmpl tgt : Image) (d : Detection) (c : Cfg) :
    Option OrbResult :=
  let expansion := c.yolo_roi_expansion.getD (1/10)
  let expandW := ratTrunc ((d.width : ℚ) * expansion)
  let expandH := ratTrunc ((d.height : ℚ) * expansion)
  let roiX := max 0 (d.x - expandW)
  let roiY := max 0 (d.y - expandH)
  let roiW := min ((tgt.width : Int) - roiX) (d.width + 2 * expandW)
  let roiH := min ((tgt.height : Int) - roiY) (d.height + 2 * expandH)
  let roi := cropImage tgt roiX roiY roiW roiH
  match matchFeatures env tmpl roi c with
  | some r =>
    let r1 := if r.xKey.isSome then { r with xKey := r.xKey.map (· + roiX) } else r
    let r2 := if r1.yKey.isSome then { r1 with yKey := r1.yKey.map (· + roiY) } else r1
    some { r2 with yolo_confidence := some d.confidence, method := "YOLO+ORB" }
  | none => none

/-- The best-of-ROIs fold of `match_with_yolo_orb` (yolo_orb_matching.py
lines 341-354): keep a ROI result only when its confidence strictly exceeds
the best seen so far. -/
def bestRoiFold (env : CvEnv) (tmpl tgt : Image) (c : Cfg)
    (dets : List Detection) : Option OrbResult × ℚ :=
  dets.foldl
    (fun best d =>
      match matchInRoi env tmpl tgt d c with
      | some r => if r.confidence > best.2 then (some r, r.confidence) else best
      | none => best)
    (none, 0)

/-- Embeds `match_with_yolo_orb` (yolo_orb_matching.py lines 308-379): optional YOLO
stage over the detections (which `detect_objects_yolo` always returns empty),
then the pure-ORB fallback gated by `orb_fallback`. -/
def matchWithYoloOrb (env : CvEnv) (tmpl tgt : Image) (c : Cfg) :
    Option OrbResult :=
  let hc := mergeHybrid c
  let roiPhase : Option OrbResult :=
    if hc.use_yolo_preprocessing.getD true then
      let dets := detectObjectsYolo tgt c
      if dets.isEmpty then none else (bestRoiFold env tmpl tgt c dets).1
    else none
  match roiPhase with
  | some r => some r
  | none =>
    if hc.orb_fallback.getD true then
      match matchFeatures env tmpl tgt hc with
      | some r => some { r with method := "YOLO+ORB_fallback" }
      | none => none
    else none

/-- The OpenCV template-matching metrics offered by `matching_methods`
(template_matching.py lines 27-34). -/
inductive MMethod where
  | ccoeffNormed
  | ccorrNormed
  | sqdiffNormed
  | ccoeff
  | ccorr
  | sqdiff
  deriving DecidableEq

/-- Embeds `self.matching_methods.get(method_name, cv2.TM_CCOEFF_NORMED)`. -/
def methodOf (s : String) : MMethod :=
  if s = "TM_CCOEFF_NORMED" then .ccoeffNormed
  else if s = "TM_CCORR_NORMED" then .ccorrNormed
  else if s = "TM_SQDIFF_NORMED" then .sqdiffNormed
  else if s = "TM_CCOEFF" then .ccoeff
  else if s = "TM_CCORR" then .ccorr
  else if s = "TM_SQDIFF" then .sqdiff
  else .ccoeffNormed

/-- Embeds the test `method in [cv2.TM_SQDIFF, cv2.TM_SQDIFF_NORMED]`. -/
def sqdiffLike : MMethod → Bool
  | .sqdiff => true
  | .sqdiffNormed => true
  | _ => false

/-- A correlation score map, the result array of `cv2.matchTemplate`. -/
structure ScoreMap where
  rows : Nat
  cols : Nat
  val : Nat → Nat → ℚ

/-- Row-major list of the `(x, y)` positions of a score map. -/
def mapPositions (m : ScoreMap) : List (Nat × Nat) :=
  (List.range m.rows).flatMap fun y => (List.range m.cols).map fun x => (x, y)

/-- External OpenCV operations used by the template-matching engine. -/
structure CorrEnv where
  /-- Models `cv2.matchTemplate screenshot template method`. -/
  matchTemplate : Image → Image → MMethod → ScoreMap
  /-- Models `cv2.resize(template, None, fx=s, fy=s, INTER_AREA/INTER_CUBIC)`. -/
  resize : Image → ℚ → Image

/-- Models `cv2.minMaxLoc`: minimum and maximum values with their first (row-major)
locations, as `(minVal, maxVal, minLoc, maxLoc)`. -/
def minMaxLoc (m : ScoreMap) : ℚ × ℚ × (Nat × Nat) × (Nat × Nat) :=
  let v0 := m.val 0 0
  ((mapPositions m).foldl
    (fun acc p =>
      let v := m.val p.2 p.1
      let a1 := if v < acc.1 then (v, p) else (acc.1, acc.2.2.1)
      let a2 := if v > acc.2.1 then (v, p) else (acc.2.1, acc.2.2.2)
      (a1.1, a2.1, a1.2, a2.2))
    (v0, v0, (0, 0), (0, 0)))

/-- The result dictionary of `_single_scale_match` / `_multi_scale_match`. -/
structure CorrResult where
  method : String
  left : Int
  top : Int
  width : Int
  height : Int
  center_x : Int
  center_y : Int
  confidence : ℚ
  match_value : ℚ
  scale : ℚ
  deriving DecidableEq

/-- Embeds `_single_scale_match` (template_matching.py lines 191-252): oversize
guard, correlation, extremum selection per metric (squared-difference scores
are inverted into a confidence), and the threshold test. -/
def singleScaleMatch (env : CorrEnv) (tmpl scr : Image) (method : MMethod)
    (thr : ℚ) : Option CorrResult :=
  if tmpl.height > scr.height ∨ tmpl.width > scr.width then none
  else
    let res := env.matchTemplate scr tmpl method
    let mml := minMaxLoc res
    let minVal := mml.1
    let maxVal := mml.2.1
    let minLoc := mml.2.2.1
    let maxLoc := mml.2.2.2
    let pick : ℚ × (Nat × Nat) × ℚ :=
      if sqdiffLike method then
        (minVal, minLoc,
          if method = .sqdiffNormed then 1 - minVal else 1 - minVal / maxVal)
      else (maxVal, maxLoc, maxVal)
    let confidence := pick.2.2
    if confidence ≥ thr then
      some { method := "opencv"
             left := pick.2.1.1
             top := pick.2.1.2
             width := tmpl.width
             height := tmpl.height
             center_x := (pick.2.1.1 + tmpl.width / 2 : Nat)
             center_y := (pick.2.1.2 + tmpl.height / 2 : Nat)
             confidence := confidence
             match_value := pick.1
             scale := 1 }
    else none

/-- Models `np.linspace a b n` over the rationals. -/
def linspaceQ (a b : ℚ) (n : Nat) : List ℚ :=
  if n = 0 then []
  else if n = 1 then [a]
  else (List.range n).map fun i => a + i * (b - a) / ((n : ℚ) - 1)

/-- The scale list evaluated by `_multi_scale_match`. -/
def scalesOf (c : Cfg) : List ℚ :=
  let range := c.scale_range.getD (4/5, 6/5)
  linspaceQ range.1 range.2 (c.scale_steps.getD 5)

/-- One iteration of the scale loop of `_multi_scale_match`: resize the
template, skip the scale when the resized template no longer fits, and keep a
result only when its confidence strictly exceeds the best so far. -/
def multiScaleStep (env : CorrEnv) (tmpl scr : Image) (method : MMethod)
    (thr : ℚ) (best : Option CorrResult × ℚ) (s : ℚ) : Option CorrResult × ℚ :=
  let scaled := env.resize tmpl s
  if scaled.height > scr.height ∨ scaled.width > scr.width then best
  else
    match singleScaleMatch env scaled scr method thr with
    | some r =>
      if r.confidence > best.2 then (some { r with scale := s }, r.confidence)
      else best
    | none => best

/-- Embeds `_multi_scale_match` (template_matching.py lines 254-313): resize the
template at each scale, skip scales where it no longer fits, and keep the
strictly best-scoring result (ties kept at first occurrence). -/
def multiScaleMatch (env : CorrEnv) (tmpl scr : Image) (method : MMethod)
    (thr : ℚ) (c : Cfg) : Option CorrResult :=
  ((scalesOf c).foldl (multiScaleStep env tmpl scr method thr) (none, 0)).1

/-- The branch condition of `_match_template` (template_matching.py line 184):
`config.get("scale_range") and config.get("scale_steps", 0) > 1`. -/
def usesMultiScale (c : Cfg) : Bool :=
  c.scale_range.isSome && decide (1 < c.scale_steps.getD 0)

/-- Embeds `_match_template` (template_matching.py lines 165-189). -/
def matchTemplateCfg (env : CorrEnv) (tmpl scr : Image) (c : Cfg) :
    Option CorrResult :=
  let method := methodOf (c.method.getD "TM_CCOEFF_NORMED")
  let thr := c.threshold.getD (4/5)
  if usesMultiScale c then multiScaleMatch env tmpl scr method thr c
  else singleScaleMatch env tmpl scr method thr

/-- Embeds `self.default_config` of `TemplateMatchingEngine` (template_matching.py
lines 37-45); `confidence_threshold` and the retry keys are carried but only
`method`, `threshold`, `scale_range` and `scale_steps` feed `_match_template`. -/
def defaultCorrConfig : Cfg :=
  { method := some "TM_CCOEFF_NORMED"
    threshold := some (4/5)
    max_retries := some 3
    scale_range := some (4/5, 6/5)
    scale_steps := some 5 }

/-- Models `cv2.matchTemplate` with `TM_CCORR` computed exactly: the unnormalized
cross-correlation, the sum of pixelwise products of the template and the
overlapped window. -/
def ccorrScoreMap (scr tmpl : Image) : ScoreMap where
  rows := scr.height - tmpl.height + 1
  cols := scr.width - tmpl.width + 1
  val := fun y x =>
    ((List.range tmpl.height).map fun i =>
      ((List.range tmpl.width).map fun j =>
        tmpl.data i j * scr.data (y + i) (x + j)).sum).sum

/-- The result dictionary built by `find_all_matches` (no region given). -/
structure FindAllResult where
  method : String
  left : Int
  top : Int
  width : Int
  height : Int
  center_x : Int
  center_y : Int
  confidence : ℚ
  deriving DecidableEq

/-- A candidate location with its confidence, one `(pt, confidence)` pair of
`find_all_matches`. -/
abbrev Cand := (Nat × Nat) × ℚ

/-- Stable descending insertion by confidence; folding it over the candidate
list reproduces the stable Python `list.sort(key=confidence, reverse=True)`. -/
def insertDesc (c : Cand) : List Cand → List Cand
  | [] => [c]
  | d :: ds => if d.2 < c.2 then c :: d :: ds else d :: insertDesc c ds

/-- Embeds `match_points.sort(key=lambda x: x[1], reverse=True)` (stable). -/
def sortCandsDesc (l : List Cand) : List Cand :=
  l.foldl (fun acc c => insertDesc c acc) []

/-- The overlap test of `find_all_matches` (template_matching.py lines
437-443): within half a template dimension in both coordinates. -/
def overlapsB (tw th : Nat) (x y : Nat) (m : FindAllResult) : Bool :=
  decide (|(x : ℚ) - (m.left : ℚ)| < (tw : ℚ) * (1/2)) &&
  decide (|(y : ℚ) - (m.top : ℚ)| < (th : ℚ) * (1/2))

/-- The match dictionary appended for an accepted candidate. -/
def mkFindAllResult (tw th : Nat) (c : Cand) : FindAllResult where
  method := "opencv_all"
  left := c.1.1
  top := c.1.2
  width := tw
  height := th
  center_x := (c.1.1 + tw / 2 : Nat)
  center_y := (c.1.2 + th / 2 : Nat)
  confidence := c.2

/-- The greedy suppression loop of `find_all_matches` (template_matching.py
lines 432-471): candidates in order, skip those overlapping an accepted
match, stop once `max_matches` matches are collected. -/
def nmsLoop (tw th maxM : Nat) : List Cand → List FindAllResult →
    List FindAllResult
  | [], acc => acc
  | c :: rest, acc =>
    if acc.any (overlapsB tw th c.1.1 c.1.2) then nmsLoop tw th maxM rest acc
    else if maxM ≤ (acc ++ [mkFindAllResult tw th c]).length then
      acc ++ [mkFindAllResult tw th c]
    else nmsLoop tw th maxM rest (acc ++ [mkFindAllResult tw th c])

/-- Embeds `find_all_matches` (template_matching.py lines 368-478) after the
template read and the screen capture: threshold the score map (`np.where`),
collect `(pt, confidence)` pairs in row-major order, sort by confidence
descending (stable), truncate to `max_matches * 3` candidates, and run the
greedy suppression loop. -/
def findAllMatches (env : CorrEnv) (tmpl scr : Image) (c : Cfg)
    (maxMatches : Nat) : List FindAllResult :=
  let method := methodOf (c.method.getD "TM_CCOEFF_NORMED")
  let thr := c.threshold.getD (4/5)
  let res := env.matchTemplate scr tmpl method
  let isSq := sqdiffLike method
  let locs := (mapPositions res).filter fun p =>
    if isSq then decide (res.val p.2 p.1 ≤ 1 - thr)
    else decide (res.val p.2 p.1 ≥ thr)
  let matchPoints : List Cand := locs.map fun p =>
    (p, if isSq then 1 - res.val p.2 p.1 else res.val p.2 p.1)
  let sorted := sortCandsDesc matchPoints
  nmsLoop tmpl.width tmpl.height maxMatches (sorted.take (maxMatches * 3)) []

/-- The template occurs verbatim in the target with its top-left corner at
`(x, y)`. -/
def isPlantedAt (tmpl tgt : Image) (x y : Nat) : Bool :=
  decide (x + tmpl.width ≤ tgt.width) && decide (y + tmpl.height ≤ tgt.height) &&
  (List.range tmpl.height).all fun i =>
    (List.range tmpl.width).all fun j =>
      decide (tgt.data (y + i) (x + j) = tmpl.data i j)

/-- All positions of the target at which the template is planted. -/
def plantedPositions (tmpl tgt : Image) : List (Nat × Nat) :=
  ((List.range tgt.height).flatMap fun y =>
    (List.range tgt.width).map fun x => (x, y)).filter
    fun p => isPlantedAt tmpl tgt p.1 p.2

/-- The identity homography. -/
def idHom : Homography := ⟨1, 0, 0, 0, 1, 0, 0, 0, 1⟩

/-- The four keypoints returned by the concrete detector environments. -/
def kpsW : List Keypoint := [(0, 0), (10, 0), (10, 10), (0, 10)]

/-- The four identity correspondences returned by `envId.bfMatch`. -/
def msW : List DMatch := [⟨0, 0, 10⟩, ⟨1, 1, 10⟩, ⟨2, 2, 10⟩, ⟨3, 3, 10⟩]

/-- A concrete external-library behaviour: four stable keypoints with
descriptors on every image, brute-force matching pairing them identically,
and RANSAC recovering the identity homography with all four inliers. -/
def envId : CvEnv where
  orbDetect := fun _ _ => (kpsW, some [0, 1, 2, 3])
  bfMatch := fun _ _ _ => msW
  flannMatch := fun _ _ => []
  knnMatch2 := fun _ _ =>
    [[⟨0, 0, 10⟩, ⟨0, 1, 10⟩], [⟨1, 1, 10⟩, ⟨1, 0, 10⟩],
     [⟨2, 2, 10⟩, ⟨2, 3, 10⟩], [⟨3, 3, 10⟩, ⟨3, 2, 10⟩]]
  findHomography := fun _ _ _ => some (idHom, [true, true, true, true])

/-- A 10x10 constant template. -/
def tmplW : Image := ⟨10, 10, fun _ _ => 1⟩

/-- A 200x200 constant target. -/
def tgtW : Image := ⟨200, 200, fun _ _ => 1⟩

/-- The result `match_features` produces for `envId` on `tmplW`/`tgtW` with
an empty config. -/
def rW : OrbResult where
  method := "ORB_features"
  num_matches := 4
  num_inliers := 4
  inlier_rate := 1
  avg_distance := some 10
  confidence := 89/125
  homography := some idHom
  bounding_box := some ⟨0, 0, 10, 10, 10, 10⟩
  center_point := some (5, 5)
  keypoints1 := [(0, 0), (10, 0), (10, 10), (0, 10)]
  keypoints2 := [(0, 0), (10, 0), (10, 10), (0, 10)]
  match_list := [(0, 0, 10), (1, 1, 10), (2, 2, 10), (3, 3, 10)]
  template_size := (10, 10)
  target_size := (200, 200)

/-- Every successful retry-loop outcome is the outcome of the single
(deterministic) attempt. -/
theorem matchFeaturesAux_some {env : CvEnv} {tmpl tgt : Image} {c : Cfg}
    {r : OrbResult} :
    ∀ n, matchFeaturesAux env tmpl tgt c n = some r →
      attemptOrbMatching env tmpl tgt c = some r := by
  intro n
  induction n with
  | zero => simp [matchFeaturesAux]
  | succ n ih =>
    intro h
    unfold matchFeaturesAux at h
    cases ha : attemptOrbMatching env tmpl tgt c with
    | none => rw [ha] at h; exact ha.symm.trans (ih h)
    | some s => rw [ha] at h; exact h

/-- Inversion for `match_features`: a returned result is the analysis of the
correspondence stage, which passed the `min_matches` and index guards. -/
theorem matchFeatures_inv {env : CvEnv} {tmpl tgt : Image} {c : Cfg}
    {r : OrbResult} (h : matchFeatures env tmpl tgt c = some r) :
    ∃ kp1 kp2 ms,
      stageCorrespond env tmpl tgt (mergeMatch c) = some (kp1, kp2, ms) ∧
      ¬ ms.length < (mergeMatch c).min_matches.getD 10 ∧
      validIdx ms kp1 kp2 = true ∧
      r = analyzeMatches env kp1 kp2 ms tmpl tgt (mergeMatch c) := by
  have ha := matchFeaturesAux_some _ h
  unfold attemptOrbMatching at ha
  cases hs : stageCorrespond env tmpl tgt (mergeMatch c) with
  | none => rw [hs] at ha; exact absurd ha (by simp)
  | some triple =>
    obtain ⟨kp1, kp2, ms⟩ := triple
    rw [hs] at ha
    have ha2 : (if ms.length < (mergeMatch c).min_matches.getD 10 then
        (none : Option OrbResult)
      else if validIdx ms kp1 kp2 = true then
        some (analyzeMatches env kp1 kp2 ms tmpl tgt (mergeMatch c))
      else none) = some r := ha
    by_cases hlt : ms.length < (mergeMatch c).min_matches.getD 10
    · rw [if_pos hlt] at ha2; exact absurd ha2 (by simp)
    · rw [if_neg hlt] at ha2
      by_cases hv : validIdx ms kp1 kp2 = true
      · rw [if_pos hv] at ha2
        exact ⟨kp1, kp2, ms, rfl, hlt, hv, (Option.some_injective _ ha2).symm⟩
      · rw [if_neg hv] at ha2; exact absurd ha2 (by simp)

/-- The confidence field of an analysed result satisfies the scoring formula
in terms of its own diagnostic fields. -/
theorem analyzeMatches_confidence (env : CvEnv) (kp1 kp2 : List Keypoint)
    (ms : List DMatch) (tmpl tgt : Image) (c : Cfg) :
    (analyzeMatches env kp1 kp2 ms tmpl tgt c).confidence =
      (if 0 < (analyzeMatches env kp1 kp2 ms tmpl tgt c).num_matches then
        ((analyzeMatches env kp1 kp2 ms tmpl tgt c).num_inliers : ℚ) /
          ((analyzeMatches env kp1 kp2 ms tmpl tgt c).num_matches : ℚ)
      else 0) * (7/10) +
      min (((analyzeMatches env kp1 kp2 ms tmpl tgt c).num_matches : ℚ) / 100) 1
        * (3/10) := rfl

/-- Claim C5: every FeatureMatcher result reports
`confidence = 0.7 * inlier_ratio + 0.3 * min(total/100, 1)` with
`inlier_ratio = inliers/total` (0 when the total is 0). -/
theorem c5_confidence_formula (env : CvEnv) (tmpl tgt : Image) (c : Cfg)
    (r : OrbResult) (h : matchFeatures env tmpl tgt c = some r) :
    r.confidence =
      (if 0 < r.num_matches then (r.num_inliers : ℚ) / (r.num_matches : ℚ)
       else 0) * (7/10) +
      min ((r.num_matches : ℚ) / 100) 1 * (3/10) := by
  obtain ⟨kp1, kp2, ms, _, _, _, hr⟩ := matchFeatures_inv h
  rw [hr]
  exact analyzeMatches_confidence env kp1 kp2 ms tmpl tgt (mergeMatch c)

/-- Witness for C5 at a concrete input. -/
theorem c5_witness :
    rW.confidence =
      (if 0 < rW.num_matches then (rW.num_inliers : ℚ) / (rW.num_matches : ℚ)
       else 0) * (7/10) +
      min ((rW.num_matches : ℚ) / 100) 1 * (3/10) :=
  c5_confidence_formula envId tmplW tgtW {} rW (by with_unfolding_all decide)

/-- Claim C7: an attempt whose correspondence set (after the configured
strategy) is smaller than `min_matches` returns no-match, regardless of the
correspondence distances. -/
theorem c7_below_min_matches (env : CvEnv) (tmpl tgt : Image) (c : Cfg)
    (kp1 kp2 : List Keypoint) (ms : List DMatch)
    (hs : stageCorrespond env tmpl tgt c = some (kp1, kp2, ms))
    (hlt : ms.length < c.min_matches.getD 10) :
    attemptOrbMatching env tmpl tgt c = none := by
  unfold attemptOrbMatching
  rw [hs]
  exact if_pos hlt

/-- Witness for C7: four high-quality correspondences are still rejected by
the default `min_matches = 10` of `_attempt_orb_matching`. -/
theorem c7_witness : attemptOrbMatching envId tmplW tgtW {} = none :=
  c7_below_min_matches envId tmplW tgtW {} kpsW kpsW msW (by with_unfolding_all decide) (by decide)

/-- Notes that `_ratio_test_matching` only reads `distance_threshold` from the config. -/
theorem ratioTestMatching_congr (env : CvEnv) {c1 c2 : Cfg}
    (hd : c1.distance_threshold = c2.distance_threshold) :
    ∀ d1 d2, ratioTestMatching env d1 d2 c1 = ratioTestMatching env d1 d2 c2 := by
  intro d1 d2
  unfold ratioTestMatching
  rw [hd]

/-- Notes that `_analyze_matches` only reads `homography_threshold` from the config. -/
theorem analyzeMatches_congr (env : CvEnv) {c1 c2 : Cfg}
    (hh : c1.homography_threshold = c2.homography_threshold) :
    ∀ kp1 kp2 ms tmpl tgt, analyzeMatches env kp1 kp2 ms tmpl tgt c1 =
      analyzeMatches env kp1 kp2 ms tmpl tgt c2 := by
  intro kp1 kp2 ms tmpl tgt
  unfold analyzeMatches
  rw [hh]

/-- The correspondence stage reads only the ORB parameters and the
matcher-strategy keys. -/
theorem stageCorrespond_congr (env : CvEnv) (tmpl tgt : Image) {c1 c2 : Cfg}
    (hd : c1.distance_threshold = c2.distance_threshold)
    (hmt : c1.matcher_type = c2.matcher_type)
    (hcc : c1.use_cross_check = c2.use_cross_check)
    (hrt : c1.use_ratio_test = c2.use_ratio_test)
    (hp : orbParamsOf c1 = orbParamsOf c2) :
    stageCorrespond env tmpl tgt c1 = stageCorrespond env tmpl tgt c2 := by
  unfold stageCorrespond
  simp only [hp, hmt, hcc, hrt, ratioTestMatching_congr env hd]

/-- Notes that `_attempt_orb_matching` depends only on the feature-matching keys. -/
theorem attemptOrbMatching_congr (env : CvEnv) (tmpl tgt : Image) {c1 c2 : Cfg}
    (hd : c1.distance_threshold = c2.distance_threshold)
    (hm : c1.min_matches = c2.min_matches)
    (hmt : c1.matcher_type = c2.matcher_type)
    (hcc : c1.use_cross_check = c2.use_cross_check)
    (hrt : c1.use_ratio_test = c2.use_ratio_test)
    (hh : c1.homography_threshold = c2.homography_threshold)
    (hp : orbParamsOf c1 = orbParamsOf c2) :
    attemptOrbMatching env tmpl tgt c1 = attemptOrbMatching env tmpl tgt c2 := by
  unfold attemptOrbMatching
  rw [stageCorrespond_congr env tmpl tgt hd hmt hcc hrt hp]
  simp only [hm, analyzeMatches_congr env hh]

/-- The retry loop is a congruence in the attempt. -/
theorem matchFeaturesAux_congr (env : CvEnv) (tmpl tgt : Image) {c1 c2 : Cfg}
    (h : attemptOrbMatching env tmpl tgt c1 = attemptOrbMatching env tmpl tgt c2) :
    ∀ n, matchFeaturesAux env tmpl tgt c1 n = matchFeaturesAux env tmpl tgt c2 n := by
  intro n
  induction n with
  | zero => rfl
  | succ n ih =>
    unfold matchFeaturesAux
    rw [h, ih]

/-- Notes that `match_features` depends only on the feature-matching keys. -/
theorem matchFeatures_congr (env : CvEnv) (tmpl tgt : Image) {c1 c2 : Cfg}
    (hd : c1.distance_threshold = c2.distance_threshold)
    (hm : c1.min_matches = c2.min_matches)
    (hr : c1.max_retries = c2.max_retries)
    (hmt : c1.matcher_type = c2.matcher_type)
    (hcc : c1.use_cross_check = c2.use_cross_check)
    (hrt : c1.use_ratio_test = c2.use_ratio_test)
    (hh : c1.homography_threshold = c2.homography_threshold)
    (hp : orbParamsOf c1 = orbParamsOf c2) :
    matchFeatures env tmpl tgt c1 = matchFeatures env tmpl tgt c2 := by
  have hatt : attemptOrbMatching env tmpl tgt (mergeMatch c1) =
      attemptOrbMatching env tmpl tgt (mergeMatch c2) := by
    apply attemptOrbMatching_congr env tmpl tgt
    · simp only [mergeMatch, hd]
    · simp only [mergeMatch, hm]
    · simp only [mergeMatch, hmt]
    · simp only [mergeMatch, hcc]
    · simp only [mergeMatch, hrt]
    · simp only [mergeMatch, hh]
    · have h1 : orbParamsOf (mergeMatch c1) = orbParamsOf c1 := rfl
      have h2 : orbParamsOf (mergeMatch c2) = orbParamsOf c2 := rfl
      rw [h1, h2, hp]
  have hn : (mergeMatch c1).max_retries.getD 3 = (mergeMatch c2).max_retries.getD 3 := by
    simp only [mergeMatch, hr]
  show matchFeaturesAux env tmpl tgt (mergeMatch c1) ((mergeMatch c1).max_retries.getD 3) =
    matchFeaturesAux env tmpl tgt (mergeMatch c2) ((mergeMatch c2).max_retries.getD 3)
  rw [hn]
  exact matchFeaturesAux_congr env tmpl tgt hatt _

/-- Notes that `mergeHybrid` does not touch the feature-matching keys, so the fallback
feature match is the plain feature match. -/
theorem matchFeatures_mergeHybrid (env : CvEnv) (tmpl tgt : Image) (c : Cfg) :
    matchFeatures env tmpl tgt (mergeHybrid c) = matchFeatures env tmpl tgt c :=
  matchFeatures_congr env tmpl tgt rfl rfl rfl rfl rfl rfl rfl rfl

/-- Since the detector stub always returns zero detections, the ROI phase of
`match_with_yolo_orb` never produces a result and the hybrid match reduces to
the gated fallback. -/
theorem matchWithYoloOrb_eq_fallback (env : CvEnv) (tmpl tgt : Image) (c : Cfg) :
    matchWithYoloOrb env tmpl tgt c =
      (if (mergeHybrid c).orb_fallback.getD true then
        match matchFeatures env tmpl tgt (mergeHybrid c) with
        | some r => some { r with method := "YOLO+ORB_fallback" }
        | none => none
      else none) := by
  unfold matchWithYoloOrb
  simp only [detectObjectsYolo, List.isEmpty_nil, if_true, ite_self]

/-- With the fallback enabled, the hybrid match is the feature match with the
method retagged. -/
theorem hybridFallbackEq (env : CvEnv) (tmpl tgt : Image) (c : Cfg)
    (hfb : c.orb_fallback.getD true = true) :
    matchWithYoloOrb env tmpl tgt c =
      (matchFeatures env tmpl tgt c).map
        (fun r => { r with method := "YOLO+ORB_fallback" }) := by
  rw [matchWithYoloOrb_eq_fallback]
  have h1 : (mergeHybrid c).orb_fallback.getD true = c.orb_fallback.getD true := rfl
  rw [h1, hfb, if_pos rfl, matchFeatures_mergeHybrid]
  cases matchFeatures env tmpl tgt c <;> rfl

/-- Claim C4: when the detector returns an empty list and `orb_fallback` is
enabled, the hybrid result equals the whole-image feature match with the same
configuration, differing only in the method tag. -/
theorem c4_empty_detector_fallback (env : CvEnv) (tmpl tgt : Image) (c : Cfg)
    (hfb : c.orb_fallback.getD true = true)
    (_hdet : detectObjectsYolo tgt c = []) :
    matchWithYoloOrb env tmpl tgt c =
      (matchFeatures env tmpl tgt c).map
        (fun r => { r with method := "YOLO+ORB_fallback" }) :=
  hybridFallbackEq env tmpl tgt c hfb

/-- Witness for C4 at a concrete environment, images and an empty config. -/
theorem c4_witness :
    matchWithYoloOrb envId tmplW tgtW {} =
      (matchFeatures envId tmplW tgtW {}).map
        (fun r => { r with method := "YOLO+ORB_fallback" }) :=
  c4_empty_detector_fallback envId tmplW tgtW {} rfl rfl

/-- Claim C3: the YOLO detector stub returns the empty list for every image
and configuration (even one naming a model path), the hybrid result never
depends on `min_yolo_confidence`, and with the fallback enabled the hybrid
match is always the whole-image ORB fallback (or no-match). -/
theorem c3_yolo_stub_behaviour :
    (∀ img c, detectObjectsYolo img c = []) ∧
    (∀ (env : CvEnv) (tmpl tgt : Image) (c : Cfg) (v : Option ℚ),
      matchWithYoloOrb env tmpl tgt { c with min_yolo_confidence := v } =
        matchWithYoloOrb env tmpl tgt c) ∧
    (∀ (env : CvEnv) (tmpl tgt : Image) (c : Cfg),
      c.orb_fallback.getD true = true →
      matchWithYoloOrb env tmpl tgt c =
        (matchFeatures env tmpl tgt c).map
          (fun r => { r with method := "YOLO+ORB_fallback" })) := by
  refine ⟨fun _ _ => rfl, fun env tmpl tgt c v => ?_, hybridFallbackEq⟩
  rw [matchWithYoloOrb_eq_fallback, matchWithYoloOrb_eq_fallback]
  have h1 : (mergeHybrid { c with min_yolo_confidence := v }).orb_fallback.getD true =
      (mergeHybrid c).orb_fallback.getD true := rfl
  have h2 : matchFeatures env tmpl tgt (mergeHybrid { c with min_yolo_confidence := v }) =
      matchFeatures env tmpl tgt (mergeHybrid c) :=
    matchFeatures_congr env tmpl tgt rfl rfl rfl rfl rfl rfl rfl rfl
  rw [h1, h2]

/-- Witness for C3 at concrete inputs. -/
theorem c3_witness :
    detectObjectsYolo tgtW {} = [] ∧
    matchWithYoloOrb envId tmplW tgtW { min_yolo_confidence := some (1/2) } =
      matchWithYoloOrb envId tmplW tgtW {} ∧
    matchWithYoloOrb envId tmplW tgtW {} =
      (matchFeatures envId tmplW tgtW {}).map
        (fun r => { r with method := "YOLO+ORB_fallback" }) :=
  ⟨c3_yolo_stub_behaviour.1 tgtW {},
   c3_yolo_stub_behaviour.2.1 envId tmplW tgtW {} (some (1/2)),
   c3_yolo_stub_behaviour.2.2 envId tmplW tgtW {} rfl⟩

/-- Arithmetic core of the C1 invariant: with at most three inliers out of at
least four correspondences the confidence score stays below 0.8. -/
theorem confBoundAux (I T : Nat) (hI : I ≤ 3) (hT : 4 ≤ T) :
    ((I : ℚ) / (T : ℚ)) * (7/10) + min ((T : ℚ) / 100) 1 * (3/10) < 4/5 := by
  have hI3 : (I : ℚ) ≤ 3 := by exact_mod_cast hI
  have hx4 : (4 : ℚ) ≤ (T : ℚ) := by exact_mod_cast hT
  have hx0 : (0 : ℚ) < (T : ℚ) := by linarith
  have hI0 : (0 : ℚ) ≤ (I : ℚ) := by positivity
  have hfrac : (I : ℚ) / (T : ℚ) ≤ 3 / (T : ℚ) := by
    exact div_le_div_of_nonneg_right hI3 hx0.le
  rcases min_cases ((T : ℚ) / 100) 1 with ⟨hmin, hle⟩ | ⟨hmin, hlt⟩
  · -- T ≤ 100
    have hx100 : (T : ℚ) ≤ 100 := by
      have := (div_le_one (by norm_num : (0:ℚ) < 100)).mp hle
      linarith
    rw [hmin]
    have key : (21/10 : ℚ) + (3/1000) * (T : ℚ) * (T : ℚ) < (4/5) * (T : ℚ) := by
      nlinarith [mul_nonneg (sub_nonneg.mpr hx4)
        (by linarith : (0:ℚ) ≤ 788 - 3 * (T : ℚ))]
    have hform : 3 / (T : ℚ) * (7/10) + (T : ℚ) / 100 * (3/10) =
        ((21/10 : ℚ) + (3/1000) * (T : ℚ) * (T : ℚ)) / (T : ℚ) := by
      field_simp
      ring
    have hmain : 3 / (T : ℚ) * (7/10) + (T : ℚ) / 100 * (3/10) < 4/5 := by
      rw [hform, div_lt_iff₀ hx0]
      linarith
    have hmono : (I : ℚ) / (T : ℚ) * (7/10) ≤ 3 / (T : ℚ) * (7/10) :=
      mul_le_mul_of_nonneg_right hfrac (by norm_num)
    linarith
  · -- 100 < T
    have hx100 : (100 : ℚ) < (T : ℚ) := by
      have := (one_lt_div (by norm_num : (0:ℚ) < 100)).mp hlt
      linarith
    rw [hmin]
    have hb : (I : ℚ) / (T : ℚ) ≤ 3 / 100 := by
      rw [div_le_iff₀ hx0]
      nlinarith
    have hmono : (I : ℚ) / (T : ℚ) * (7/10) ≤ 3 / 100 * (7/10) :=
      mul_le_mul_of_nonneg_right hb (by norm_num)
    linarith

/-- Result-level invariant of `_analyze_matches`: a result without a bounding
box scores below 0.8, and any nonempty correspondence set scores above 0. -/
theorem analyzeMatches_bbox_conf (env : CvEnv) (kp1 kp2 : List Keypoint)
    (ms : List DMatch) (tmpl tgt : Image) (c : Cfg) :
    ((analyzeMatches env kp1 kp2 ms tmpl tgt c).bounding_box = none →
      (analyzeMatches env kp1 kp2 ms tmpl tgt c).confidence < 4/5) ∧
    (0 < ms.length → 0 < (analyzeMatches env kp1 kp2 ms tmpl tgt c).confidence) := by
  unfold analyzeMatches
  dsimp only
  by_cases hT4 : 4 ≤ ms.length
  · rw [if_pos hT4]
    have hTpos : 0 < ms.length := by omega
    cases hh : env.findHomography (ms.map fun m => kp1.getD m.queryIdx (0, 0))
        (ms.map fun m => kp2.getD m.trainIdx (0, 0))
        (c.homography_threshold.getD 5) with
    | none =>
      simp only [if_pos hTpos, Option.map_none, Option.map_some]
      constructor
      · intro _
        have : ((0 : Nat) : ℚ) / (ms.length : ℚ) = 0 := by
          simp
        rw [this, zero_mul, zero_add]
        have hmle : min ((ms.length : ℚ) / 100) 1 ≤ 1 := min_le_right _ _
        nlinarith
      · intro _
        have : ((0 : Nat) : ℚ) / (ms.length : ℚ) = 0 := by simp
        rw [this, zero_mul, zero_add]
        have h1 : (0 : ℚ) < (ms.length : ℚ) / 100 := by positivity
        have h2 : (0 : ℚ) < min ((ms.length : ℚ) / 100) 1 :=
          lt_min h1 (by norm_num)
        nlinarith
    | some pair =>
      obtain ⟨hm, mask⟩ := pair
      simp only [if_pos hTpos]
      by_cases hk : 4 ≤ mask.countP (fun b => b)
      · rw [if_pos hk]
        constructor
        · intro hbox
          exact absurd hbox (by simp)
        · intro _
          have h1 : (0 : ℚ) < min ((ms.length : ℚ) / 100) 1 :=
            lt_min (by positivity) (by norm_num)
          have h2 : (0 : ℚ) ≤
              ((mask.countP (fun b => b) : Nat) : ℚ) / (ms.length : ℚ) := by
            positivity
          nlinarith
      · rw [if_neg hk]
        constructor
        · intro _
          exact confBoundAux (mask.countP (fun b => b)) ms.length (by omega) hT4
        · intro _
          have h1 : (0 : ℚ) < min ((ms.length : ℚ) / 100) 1 :=
            lt_min (by positivity) (by norm_num)
          have h2 : (0 : ℚ) ≤
              ((mask.countP (fun b => b) : Nat) : ℚ) / (ms.length : ℚ) := by
            positivity
          nlinarith
  · rw [if_neg hT4]
    constructor
    · intro _
      by_cases hTpos : 0 < ms.length
      · rw [if_pos hTpos]
        have : ((0 : Nat) : ℚ) / (ms.length : ℚ) = 0 := by simp
        rw [this, zero_mul, zero_add]
        have hmle : min ((ms.length : ℚ) / 100) 1 ≤ 1 := min_le_right _ _
        nlinarith
      · rw [if_neg hTpos, zero_mul, zero_add]
        have hmle : min ((ms.length : ℚ) / 100) 1 ≤ 1 := min_le_right _ _
        nlinarith
    · intro hTpos
      rw [if_pos hTpos]
      have : ((0 : Nat) : ℚ) / (ms.length : ℚ) = 0 := by simp
      rw [this, zero_mul, zero_add]
      have h1 : (0 : ℚ) < min ((ms.length : ℚ) / 100) 1 :=
        lt_min (by positivity) (by norm_num)
      nlinarith

/-- Claim C1 (amended): a FeatureMatcher result whose confidence reaches the
0.8 default threshold always carries a bounding box, and with
`min_matches ≥ 1` every returned result has strictly positive confidence
(so a failed match is never returned as a zero-confidence result). -/
theorem c1_result_invariant (env : CvEnv) (tmpl tgt : Image) (c : Cfg)
    (r : OrbResult) (h : matchFeatures env tmpl tgt c = some r) :
    (4/5 ≤ r.confidence → r.bounding_box.isSome = true) ∧
    (1 ≤ c.min_matches.getD 4 → 0 < r.confidence) := by
  obtain ⟨kp1, kp2, ms, hs, hlen, hv, hr⟩ := matchFeatures_inv h
  subst hr
  have hb := analyzeMatches_bbox_conf env kp1 kp2 ms tmpl tgt (mergeMatch c)
  constructor
  · intro hconf
    by_contra hns
    have hnone :
        (analyzeMatches env kp1 kp2 ms tmpl tgt (mergeMatch c)).bounding_box
          = none := Option.not_isSome_iff_eq_none.mp (by simpa using hns)
    exact absurd hconf (not_le.mpr (hb.1 hnone))
  · intro hmin
    apply hb.2
    have hdef : (mergeMatch c).min_matches.getD 10 = c.min_matches.getD 4 := rfl
    rw [hdef] at hlen
    omega

/-- Witness for C1 at a concrete input: the returned result has positive
confidence. -/
theorem c1_witness : 0 < rW.confidence :=
  (c1_result_invariant envId tmplW tgtW {} rW
    (by with_unfolding_all decide)).2 (by decide)

/-- The zero-correspondence result `match_features` returns when
`min_matches` is configured to 0 and the ratio test rejects every
correspondence pair. -/
def rZero : OrbResult where
  method := "ORB_features"
  num_matches := 0
  num_inliers := 0
  inlier_rate := 0
  avg_distance := none
  confidence := 0
  homography := none
  bounding_box := none
  center_point := none
  keypoints1 := [(0, 0), (10, 0), (10, 10), (0, 10)]
  keypoints2 := [(0, 0), (10, 0), (10, 10), (0, 10)]
  match_list := []
  template_size := (10, 10)
  target_size := (200, 200)

/-- Counterexample to C1 as stated: with `min_matches = 0` (a legal
configuration) and a ratio test that filters out every correspondence,
`match_features` returns a result carrying zero confidence and no bounding
box instead of returning `None`. -/
theorem c1_counterexample :
    matchFeatures envId tmplW tgtW
        { min_matches := some 0, use_ratio_test := some true } = some rZero ∧
    rZero.confidence = 0 ∧ rZero.bounding_box = none :=
  ⟨by with_unfolding_all decide, rfl, rfl⟩

/-- A YOLO detection placed well inside `tgtW`, away from the origin. -/
def detW : Detection := { x := 50, y := 40, width := 20, height := 20,
                          confidence := 9/10 }

/-- The result `_match_in_roi` produces for `envId` on `tmplW`/`tgtW` with
detection `detW` and an empty config: the feature-match result on the
48-offset ROI, retagged, with the bounding box still in ROI-local
coordinates. -/
def rC2 : OrbResult :=
  { rW with method := "YOLO+ORB", target_size := (24, 24),
            yolo_confidence := some (9/10) }

/-- Claim C2 (code bug): the comment in `_match_in_roi` says the coordinates
are remapped to the whole-target frame, but the code only shifts the `"x"`
and `"y"` keys, which a `match_features` result never contains; the bounding
box and center point are returned untranslated (here: left 0 instead of
left 48 for a ROI whose top-left corner is (48, 38)). -/
theorem c2_code_bug :
    matchInRoi envId tmplW tgtW detW {} = some rC2 ∧
    rC2.bounding_box = some ⟨0, 0, 10, 10, 10, 10⟩ ∧
    rC2.center_point = some (5, 5) ∧
    rC2.xKey = none ∧ rC2.yKey = none ∧
    max 0 (detW.x - ratTrunc ((detW.width : ℚ) * (1/10))) = 48 ∧
    max 0 (detW.y - ratTrunc ((detW.height : ℚ) * (1/10))) = 38 :=
  ⟨by with_unfolding_all decide, rfl, rfl, rfl, rfl,
   by with_unfolding_all decide, by with_unfolding_all decide⟩

/-- Claim C9 (amended): `_match_template` selects the multi-scale branch
exactly when `scale_range` is present and `scale_steps` (0 when absent)
exceeds 1; the default configuration of the engine has `scale_steps = 5` and
therefore takes the multi-scale branch. -/
theorem c9_scale_branch :
    (∀ (env : CorrEnv) (tmpl scr : Image) (c : Cfg),
      matchTemplateCfg env tmpl scr c =
        if usesMultiScale c then
          multiScaleMatch env tmpl scr (methodOf (c.method.getD "TM_CCOEFF_NORMED"))
            (c.threshold.getD (4/5)) c
        else
          singleScaleMatch env tmpl scr (methodOf (c.method.getD "TM_CCOEFF_NORMED"))
            (c.threshold.getD (4/5))) ∧
    (∀ c : Cfg, usesMultiScale c = true ↔
      c.scale_range.isSome = true ∧ 1 < c.scale_steps.getD 0) ∧
    defaultCorrConfig.scale_steps = some 5 ∧
    usesMultiScale defaultCorrConfig = true := by
  refine ⟨fun env tmpl scr c => rfl, fun c => ?_, rfl, rfl⟩
  simp [usesMultiScale]

/-- Counterexample to C9 as stated: the default configuration sets
`scale_steps` to 5, not 1, and with it `_match_template` takes the
multi-scale branch, not the single-scale one. -/
theorem c9_counterexample :
    defaultCorrConfig.scale_steps = some 5 ∧
    defaultCorrConfig.scale_steps ≠ some 1 ∧
    usesMultiScale defaultCorrConfig = true := by
  refine ⟨rfl, by decide, rfl⟩

/-- A skipped scale leaves the running best of the scale loop unchanged. -/
theorem multiScaleStep_skip (env : CorrEnv) (tmpl scr : Image)
    (method : MMethod) (thr : ℚ) (best : Option CorrResult × ℚ) (s : ℚ)
    (h : (env.resize tmpl s).height > scr.height ∨
      (env.resize tmpl s).width > scr.width) :
    multiScaleStep env tmpl scr method thr best s = best := by
  unfold multiScaleStep
  exact if_pos h

/-- Claim C6 (amended): whenever the template exceeds the target at every
evaluated scale — in particular in the single-scale branch whenever the
template itself is strictly taller or wider than the target — the
correlation matcher returns no-match. -/
theorem c6_oversize_rejects (env : CorrEnv) (tmpl scr : Image) (c : Cfg)
    (hover : tmpl.height > scr.height ∨ tmpl.width > scr.width)
    (hscales : ∀ s ∈ scalesOf c, (env.resize tmpl s).height > scr.height ∨
      (env.resize tmpl s).width > scr.width) :
    matchTemplateCfg env tmpl scr c = none := by
  unfold matchTemplateCfg
  by_cases hms : usesMultiScale c = true
  · rw [if_pos hms]
    unfold multiScaleMatch
    have key : ∀ (l : List ℚ) (acc : Option CorrResult × ℚ),
        (∀ s ∈ l, (env.resize tmpl s).height > scr.height ∨
          (env.resize tmpl s).width > scr.width) →
        l.foldl (multiScaleStep env tmpl scr
          (methodOf (c.method.getD "TM_CCOEFF_NORMED"))
          (c.threshold.getD (4/5))) acc = acc := by
      intro l
      induction l with
      | nil => intro acc _; rfl
      | cons s rest ih =>
        intro acc hall
        rw [List.foldl_cons,
          multiScaleStep_skip _ _ _ _ _ _ _ (hall s (List.mem_cons_self s rest))]
        exact ih acc fun t ht => hall t (List.mem_cons_of_mem s ht)
    rw [key (scalesOf c) (none, 0) hscales]
  · rw [if_neg hms]
    unfold singleScaleMatch
    exact if_pos hover

/-- An external behaviour for the correlation engine: exact `TM_CCORR`
scoring and an identity resize. -/
def ccorrEnv : CorrEnv where
  matchTemplate := fun scr t _ => ccorrScoreMap scr t
  resize := fun img _ => img

/-- A 2x2 constant template. -/
def tmplT2 : Image := ⟨2, 2, fun _ _ => 1⟩

/-- A 1x1 constant target. -/
def tgtT1 : Image := ⟨1, 1, fun _ _ => 1⟩

/-- Witness for C6: a 2x2 template against a 1x1 target is rejected at every
scale of the default scale list, so the match is no-match. -/
theorem c6_witness : matchTemplateCfg ccorrEnv tmplT2 tgtT1 defaultCorrConfig = none :=
  c6_oversize_rejects ccorrEnv tmplT2 tgtT1 defaultCorrConfig (by decide)
    (by with_unfolding_all decide)

/-- The OpenCV `cvRound` of `w * fx` when computing the resized image size, for
scale factors producing exact integers (the only case used here). -/
def natRound (q : ℚ) : Nat := (Rat.floor (q + 1/2)).toNat

/-- An external behaviour for the correlation engine on constant images:
`cv2.resize(img, None, fx=s, fy=s)` yields a `round(h*s) x round(w*s)` image,
and both area and cubic interpolation map a constant image to the constant
image with the same value; scoring is exact `TM_CCORR`. -/
def constResizeEnv : CorrEnv where
  matchTemplate := fun scr t _ => ccorrScoreMap scr t
  resize := fun img s =>
    ⟨natRound ((img.height : ℚ) * s), natRound ((img.width : ℚ) * s),
     fun _ _ => img.data 0 0⟩

/-- A 9x9 constant target, strictly smaller than `tmplW` in both dimensions. -/
def tgtW9 : Image := ⟨9, 9, fun _ _ => 1⟩

/-- A multi-scale `TM_CCORR` configuration over the default scale range. -/
def cfgC6 : Cfg :=
  { method := some "TM_CCORR", scale_range := some (4/5, 6/5),
    scale_steps := some 5 }

/-- The match `_match_template` finds for the oversized `tmplW` against
`tgtW9`: at scale 0.9 the resized 9x9 template fits exactly and scores 81. -/
def rC6 : CorrResult :=
  { method := "opencv", left := 0, top := 0, width := 9, height := 9,
    center_x := 4, center_y := 4, confidence := 81, match_value := 81,
    scale := 9/10 }

set_option maxRecDepth 4000 in
/-- Counterexample to C6 as stated: a template strictly taller and wider
than the target is not rejected — the multi-scale search downscales it until
it fits and returns a match. -/
theorem c6_counterexample :
    tgtW9.height < tmplW.height ∧ tgtW9.width < tmplW.width ∧
    matchTemplateCfg constResizeEnv tmplW tgtW9 cfgC6 = some rC6 :=
  ⟨by decide, by decide, by with_unfolding_all decide⟩

/-- Membership after a descending insertion. -/
theorem insertDesc_mem (c : Cand) :
    ∀ (l : List Cand) (x : Cand), x ∈ insertDesc c l → x = c ∨ x ∈ l := by
  intro l
  induction l with
  | nil =>
    intro x hx
    simp [insertDesc] at hx
    exact Or.inl hx
  | cons d ds ih =>
    intro x hx
    unfold insertDesc at hx
    by_cases h : d.2 < c.2
    · rw [if_pos h] at hx
      rcases List.mem_cons.mp hx with h1 | h1
      · exact Or.inl h1
      · exact Or.inr h1
    · rw [if_neg h] at hx
      rcases List.mem_cons.mp hx with h1 | h1
      · exact Or.inr (h1 ▸ List.mem_cons_self d ds)
      · rcases ih x h1 with h2 | h2
        · exact Or.inl h2
        · exact Or.inr (List.mem_cons_of_mem d h2)

/-- Descending insertion preserves descending order. -/
theorem insertDesc_pairwise (c : Cand) :
    ∀ l : List Cand, List.Pairwise (fun a b : Cand => b.2 ≤ a.2) l →
      List.Pairwise (fun a b : Cand => b.2 ≤ a.2) (insertDesc c l) := by
  intro l
  induction l with
  | nil => intro _; simp [insertDesc]
  | cons d ds ih =>
    intro hp
    rcases List.pairwise_cons.mp hp with ⟨hd, hds⟩
    unfold insertDesc
    by_cases h : d.2 < c.2
    · rw [if_pos h]
      refine List.pairwise_cons.mpr ⟨?_, hp⟩
      intro x hx
      rcases List.mem_cons.mp hx with h1 | h1
      · exact h1 ▸ h.le
      · exact (hd x h1).trans h.le
    · rw [if_neg h]
      refine List.pairwise_cons.mpr ⟨?_, ih hds⟩
      intro x hx
      rcases insertDesc_mem c ds x hx with h1 | h1
      · exact h1 ▸ not_lt.mp h
      · exact hd x h1

/-- The stable confidence sort produces a descending list. -/
theorem sortCandsDesc_pairwise (l : List Cand) :
    List.Pairwise (fun a b : Cand => b.2 ≤ a.2) (sortCandsDesc l) := by
  unfold sortCandsDesc
  have key : ∀ (l acc : List Cand),
      List.Pairwise (fun a b : Cand => b.2 ≤ a.2) acc →
      List.Pairwise (fun a b : Cand => b.2 ≤ a.2)
        (l.foldl (fun a c => insertDesc c a) acc) := by
    intro l
    induction l with
    | nil => intro acc h; exact h
    | cons c rest ih =>
      intro acc h
      rw [List.foldl_cons]
      exact ih _ (insertDesc_pairwise c acc h)
  exact key l [] (by simp)

/-- Two accepted matches are never within half a template dimension of each
other in both coordinates (the suppression criterion of `find_all_matches`). -/
def nonOverlap (tw th : Nat) (a b : FindAllResult) : Prop :=
  ¬(|(b.left : ℚ) - (a.left : ℚ)| < (tw : ℚ) * (1/2) ∧
    |(b.top : ℚ) - (a.top : ℚ)| < (th : ℚ) * (1/2))

/-- A candidate that passes the overlap test is non-overlapping with the
accepted match it was tested against. -/
theorem overlapsB_false_nonOverlap {tw th : Nat} {a : FindAllResult}
    {c : Cand} (h : overlapsB tw th c.1.1 c.1.2 a = false) :
    nonOverlap tw th a (mkFindAllResult tw th c) := by
  unfold overlapsB at h
  unfold nonOverlap mkFindAllResult
  simp only [Bool.and_eq_false_iff, decide_eq_false_iff_not] at h
  push_cast
  tauto

/-- The greedy loop never returns more than `max_matches` results. -/
theorem nmsLoop_length (tw th m : Nat) :
    ∀ (l : List Cand) (acc : List FindAllResult), acc.length < m →
      (nmsLoop tw th m l acc).length ≤ m := by
  intro l
  induction l with
  | nil => intro acc h; exact Nat.le_of_lt h
  | cons c rest ih =>
    intro acc h
    unfold nmsLoop
    by_cases hov : acc.any (overlapsB tw th c.1.1 c.1.2) = true
    · rw [if_pos hov]; exact ih acc h
    · rw [if_neg hov]
      by_cases hlen : m ≤ (acc ++ [mkFindAllResult tw th c]).length
      · rw [if_pos hlen]
        have : (acc ++ [mkFindAllResult tw th c]).length = acc.length + 1 := by simp
        omega
      · rw [if_neg hlen]
        exact ih _ (by simp at hlen ⊢; omega)

/-- The greedy loop keeps the accepted matches pairwise non-overlapping. -/
theorem nmsLoop_pairwise (tw th m : Nat) :
    ∀ (l : List Cand) (acc : List FindAllResult),
      List.Pairwise (nonOverlap tw th) acc →
      List.Pairwise (nonOverlap tw th) (nmsLoop tw th m l acc) := by
  intro l
  induction l with
  | nil => intro acc h; exact h
  | cons c rest ih =>
    intro acc h
    unfold nmsLoop
    by_cases hov : acc.any (overlapsB tw th c.1.1 c.1.2) = true
    · rw [if_pos hov]; exact ih acc h
    · rw [if_neg hov]
      have hfalse : acc.any (overlapsB tw th c.1.1 c.1.2) = false := by
        revert hov; cases acc.any (overlapsB tw th c.1.1 c.1.2) <;> simp
      have hall := List.any_eq_false.mp hfalse
      have hpw : List.Pairwise (nonOverlap tw th)
          (acc ++ [mkFindAllResult tw th c]) := by
        rw [List.pairwise_append]
        refine ⟨h, by simp, ?_⟩
        intro a ha b hb
        rw [List.mem_singleton] at hb
        subst hb
        exact overlapsB_false_nonOverlap (Bool.eq_false_iff.mpr (hall a ha))
      by_cases hlen : m ≤ (acc ++ [mkFindAllResult tw th c]).length
      · rw [if_pos hlen]; exact hpw
      · rw [if_neg hlen]; exact ih _ hpw

/-- The greedy loop emits results in descending confidence order when fed a
descending candidate list. -/
theorem nmsLoop_sorted (tw th m : Nat) :
    ∀ (l : List Cand) (acc : List FindAllResult),
      List.Pairwise (fun c d : Cand => d.2 ≤ c.2) l →
      List.Pairwise (fun a b : FindAllResult => b.confidence ≤ a.confidence) acc →
      (∀ a ∈ acc, ∀ cd ∈ l, cd.2 ≤ a.confidence) →
      List.Pairwise (fun a b : FindAllResult => b.confidence ≤ a.confidence)
        (nmsLoop tw th m l acc) := by
  intro l
  induction l with
  | nil => intro acc _ hacc _; exact hacc
  | cons c rest ih =>
    intro acc hl hacc hinv
    rcases List.pairwise_cons.mp hl with ⟨hc, hrest⟩
    unfold nmsLoop
    by_cases hov : acc.any (overlapsB tw th c.1.1 c.1.2) = true
    · rw [if_pos hov]
      exact ih acc hrest hacc
        (fun a ha cd hcd => hinv a ha cd (List.mem_cons_of_mem c hcd))
    · rw [if_neg hov]
      have hacc1 : List.Pairwise
          (fun a b : FindAllResult => b.confidence ≤ a.confidence)
          (acc ++ [mkFindAllResult tw th c]) := by
        rw [List.pairwise_append]
        refine ⟨hacc, by simp, ?_⟩
        intro a ha b hb
        rw [List.mem_singleton] at hb
        subst hb
        exact hinv a ha c (List.mem_cons_self c rest)
      by_cases hlen : m ≤ (acc ++ [mkFindAllResult tw th c]).length
      · rw [if_pos hlen]; exact hacc1
      · rw [if_neg hlen]
        apply ih _ hrest hacc1
        intro a ha cd hcd
        rcases List.mem_append.mp ha with h1 | h1
        · exact hinv a h1 cd (List.mem_cons_of_mem c hcd)
        · rw [List.mem_singleton] at h1
          subst h1
          exact hc cd hcd

/-- Claim C8 (amended): `find_all_matches` returns at most `max_matches`
results, in descending confidence order, pairwise non-overlapping under the
half-template-dimension suppression criterion. -/
theorem c8_greedy_selection (env : CorrEnv) (tmpl scr : Image) (c : Cfg)
    (maxM : Nat) :
    (findAllMatches env tmpl scr c maxM).length ≤ maxM ∧
    List.Pairwise (fun a b : FindAllResult => b.confidence ≤ a.confidence)
      (findAllMatches env tmpl scr c maxM) ∧
    List.Pairwise (nonOverlap tmpl.width tmpl.height)
      (findAllMatches env tmpl scr c maxM) := by
  unfold findAllMatches
  dsimp only
  refine ⟨?_, ?_, ?_⟩
  · cases maxM with
    | zero => exact Nat.le_refl 0
    | succ n => exact nmsLoop_length _ _ _ _ [] (Nat.succ_pos n)
  · exact nmsLoop_sorted _ _ _ _ []
      (List.Pairwise.sublist (List.take_sublist _ _) (sortCandsDesc_pairwise _))
      (by simp) (by simp)
  · exact nmsLoop_pairwise _ _ _ _ [] (by simp)

/-- A 1x2 template with pixel row `[1, 0]`. -/
def tmplC8 : Image := ⟨1, 2, fun _ j => if j = 0 then 1 else 0⟩

/-- A 1x4 target with pixel row `[2, 0, 1, 0]`: it contains exactly one
planted copy of `tmplC8` (at x = 2), but the window at x = 0 scores even
higher under `TM_CCORR`. -/
def tgtC8 : Image :=
  ⟨1, 4, fun _ j => if j = 0 then 2 else if j = 2 then 1 else 0⟩

/-- A `TM_CCORR` configuration with the default 0.8 threshold. -/
def cfgC8 : Cfg := { method := some "TM_CCORR" }

/-- Counterexample to C8 as stated: the target contains exactly one planted
copy of the template and `max_matches = 10 ≥ 1`, yet `find_all_matches`
returns two results — the above-threshold window at x = 0 is not a planted
copy but survives suppression. -/
theorem c8_counterexample :
    (plantedPositions tmplC8 tgtC8).length = 1 ∧ (1 : Nat) ≤ 10 ∧
    (findAllMatches ccorrEnv tmplC8 tgtC8 cfgC8 10).length = 2 ∧
    (findAllMatches ccorrEnv tmplC8 tgtC8 cfgC8 10).map
      (fun r => r.left) = [0, 2] :=
  ⟨by with_unfolding_all decide, by decide, by with_unfolding_all decide,
   by with_unfolding_all decide⟩

/-- Witness for C9: the default configuration satisfies the multi-scale
branch condition. -/
theorem c9_witness : usesMultiScale defaultCorrConfig = true :=
  (c9_scale_branch.2.1 defaultCorrConfig).mpr (by decide)
